import Mathlib

/-
Verification of the mastodon-transport link lifecycle and action-queueing
subsystem.  The definitions below are a shallow embedding of the C++ sources:

  * Link.cpp              (enqueueContent, dequeueContent, post, fetch)
  * PluginMastodon.cpp    (getActionParams, enqueueContent, preLinkCreate,
                           createLink, loadLinkAddress, createLinkFromAddress)
  * LinkMap.cpp           (the link registry, modelled as a duplicate-free
                           list of link identifiers where only the count and
                           membership matter)
  * MessageHashQueue.cpp  (addMessage)

Byte vectors are modelled as `List Nat`, the per-link content queue
(`std::unordered_map<uint64_t, ActionContent>`) as a function
`Nat → Option ActionContent`, and the external Mastodon client as an oracle
`HostCall → Bool` giving the success/failure outcome of each posting call.
-/

namespace MastodonTransport

/-- ComponentStatus return codes from the RACE component SDK. -/
inductive ComponentStatus where
  | COMPONENT_OK
  | COMPONENT_ERROR
  | COMPONENT_FATAL
deriving DecidableEq, Repr

export ComponentStatus (COMPONENT_OK COMPONENT_ERROR COMPONENT_FATAL)

/-- Package delivery status values reported through onPackageStatusChanged. -/
inductive PackageStatus where
  | PACKAGE_SENT
  | PACKAGE_FAILED_GENERIC
deriving DecidableEq, Repr

export PackageStatus (PACKAGE_SENT PACKAGE_FAILED_GENERIC)

/-- Link lifecycle status values reported through onLinkStatusChanged. -/
inductive LinkStatus where
  | LINK_CREATED
  | LINK_LOADED
  | LINK_DESTROYED
deriving DecidableEq, Repr

export LinkStatus (LINK_CREATED LINK_LOADED LINK_DESTROYED)

/-- Link side of the channel role (channelProperties.currentRole.linkSide). -/
inductive LinkSide where
  | LS_UNDEF
  | LS_CREATOR
  | LS_LOADER
  | LS_BOTH
deriving DecidableEq, Repr

export LinkSide (LS_UNDEF LS_CREATOR LS_LOADER LS_BOTH)

/-- ActionContent from Link.h: optional text bytes and optional image bytes
with presence flags.  The default values mirror the C++ default constructor
used by `contentQueue[actionId]` when the key is absent. -/
structure ActionContent where
  textContent : List Nat := []
  imageContent : List Nat := []
  hasText : Bool := false
  hasImage : Bool := false
deriving DecidableEq, Repr

/-- Pointwise update of a function-backed map, used to model assignment to
and erasure from the `std::unordered_map`s of the source. -/
def updMap {α β : Type} [DecidableEq α] (m : α → β) (k : α) (v : β) : α → β :=
  fun k' => if k' = k then v else m k'

theorem updMap_same {α β : Type} [DecidableEq α] (m : α → β) (k : α) (v : β) :
    updMap m k v k = v := by
  simp [updMap]

theorem updMap_other {α β : Type} [DecidableEq α] (m : α → β) (k k' : α) (v : β)
    (h : k' ≠ k) : updMap m k v k' = m k' := by
  simp [updMap, h]

/-- One call made on the external MastodonClient by Link::post, recording
which REST operation was selected and with what payload. -/
inductive HostCall where
  | postImageWithText (imageData : List Nat) (text : List Nat) (hashtag : String)
  | postImage (imageData : List Nat) (hashtag : String)
  | postStatus (text : List Nat) (hashtag : String)
deriving DecidableEq, Repr

/-- Link::updatePackageStatus: report the given status on every handle, in
handle order. -/
def updatePackageStatus (handles : List Nat) (status : PackageStatus) :
    List (Nat × PackageStatus) :=
  handles.map fun handle => (handle, status)

/-- Link::enqueueContent from Link.cpp lines 52-66: classify by exact MIME
string, store the bytes into the matching slot of `contentQueue[actionId]`
(default-constructing the record if absent) and set its presence flag; an
unknown content type returns COMPONENT_ERROR without touching the queue. -/
def Link.enqueueContent (contentQueue : Nat → Option ActionContent)
    (actionId : Nat) (content : List Nat) (contentType : String) :
    ComponentStatus × (Nat → Option ActionContent) :=
  if contentType = "text/plain" then
    let record := (contentQueue actionId).getD {}
    (COMPONENT_OK,
      updMap contentQueue actionId
        (some { record with textContent := content, hasText := true }))
  else if contentType = "image/jpeg" then
    let record := (contentQueue actionId).getD {}
    (COMPONENT_OK,
      updMap contentQueue actionId
        (some { record with imageContent := content, hasImage := true }))
  else
    (COMPONENT_ERROR, contentQueue)

/-- Link::dequeueContent from Link.cpp lines 68-71: erase the record
unconditionally and return COMPONENT_OK. -/
def Link.dequeueContent (contentQueue : Nat → Option ActionContent)
    (actionId : Nat) : ComponentStatus × (Nat → Option ActionContent) :=
  (COMPONENT_OK, updMap contentQueue actionId none)

/-- Transmission-mode selection of Link::post (Link.cpp lines 87-105): both
kinds present selects postImageWithText, image only selects postImage, text
only selects postStatus, neither selects no call at all (the error branch). -/
def ActionContent.transmission (content : ActionContent) (hashtag : String) :
    Option HostCall :=
  if content.hasImage && content.hasText then
    some (.postImageWithText content.imageContent content.textContent hashtag)
  else if content.hasImage then
    some (.postImage content.imageContent hashtag)
  else if content.hasText then
    some (.postStatus content.textContent hashtag)
  else
    none

/-- Observable outcome of one Link::post call: its return status, the
per-handle package-status reports it issued, the MastodonClient calls it
made, and the content queue left behind. -/
structure PostResult where
  status : ComponentStatus
  reports : List (Nat × PackageStatus)
  hostCalls : List HostCall
  contentQueue : Nat → Option ActionContent

/-- Link::post from Link.cpp lines 73-115.  `host` is the oracle giving the
success result of each MastodonClient call; `hashtagBase` is
`address.hashtag` (the code prepends a hash mark).  A missing record reports
PACKAGE_FAILED_GENERIC on all handles and returns COMPONENT_OK; an empty
record (no presence flag) reports PACKAGE_FAILED_GENERIC and returns
COMPONENT_ERROR; otherwise the selected transmission is made, and on success
the record is erased and PACKAGE_SENT reported, on failure the record is
retained and PACKAGE_FAILED_GENERIC reported. -/
def Link.post (host : HostCall → Bool) (hashtagBase : String)
    (contentQueue : Nat → Option ActionContent)
    (handles : List Nat) (actionId : Nat) : PostResult :=
  match contentQueue actionId with
  | none =>
    { status := COMPONENT_OK
      reports := updatePackageStatus handles PACKAGE_FAILED_GENERIC
      hostCalls := []
      contentQueue := contentQueue }
  | some content =>
    let hashtag := "#" ++ hashtagBase
    match content.transmission hashtag with
    | none =>
      { status := COMPONENT_ERROR
        reports := updatePackageStatus handles PACKAGE_FAILED_GENERIC
        hostCalls := []
        contentQueue := contentQueue }
    | some call =>
      if host call then
        { status := COMPONENT_OK
          reports := updatePackageStatus handles PACKAGE_SENT
          hostCalls := [call]
          contentQueue := updMap contentQueue actionId none }
      else
        { status := COMPONENT_ERROR
          reports := updatePackageStatus handles PACKAGE_FAILED_GENERIC
          hostCalls := [call]
          contentQueue := contentQueue }

/-- MastodonContent from MastodonClient.h: one item returned by
searchStatuses, carrying its MIME type and raw bytes. -/
structure MastodonContent where
  contentType : String
  data : List Nat
deriving DecidableEq, Repr

/-- One sdk->onReceive invocation made by Link::fetch: the owning link id,
the item's MIME type and its bytes. -/
structure Delivery where
  linkId : String
  mimeType : String
  data : List Nat
deriving DecidableEq, Repr

/-- The demultiplexing loop of Link::fetch (Link.cpp lines 131-137): a single
pass over the search results appending text/plain items to the first vector
and image/jpeg items to the second, dropping items of any other type. -/
def splitByKind (results : List MastodonContent) :
    List MastodonContent × List MastodonContent :=
  results.foldl
    (fun acc content =>
      if content.contentType == "text/plain" then (acc.1 ++ [content], acc.2)
      else if content.contentType == "image/jpeg" then (acc.1, acc.2 ++ [content])
      else acc)
    ([], [])

/-- Link::fetch from Link.cpp lines 117-155, with the searchStatuses result
supplied as input: splits the results by kind, then delivers all text items
followed by all image items via onReceive, returning COMPONENT_OK. -/
def Link.fetch (linkId : String) (results : List MastodonContent) :
    ComponentStatus × List Delivery :=
  let textContent := (splitByKind results).1
  let imageContent := (splitByKind results).2
  (COMPONENT_OK,
    textContent.map (fun content => ⟨linkId, content.contentType, content.data⟩) ++
    imageContent.map (fun content => ⟨linkId, content.contentType, content.data⟩))

/-- Action type of a parsed action JSON (JsonTypes).  ACTION_UNDEF stands for
any value other than POST and FETCH, which the source handles through the
`default` case of its switches. -/
inductive ActionType where
  | ACTION_POST
  | ACTION_FETCH
  | ACTION_UNDEF
deriving DecidableEq, Repr

export ActionType (ACTION_POST ACTION_FETCH ACTION_UNDEF)

/-- A successfully parsed action JSON: the ActionJson fields `type` and
`linkId`, plus the optional "contentType" hint field which
getActionParams reads directly from the JSON object. -/
structure ActionJsonModel where
  type : ActionType
  linkId : String
  contentType : Option String := none
deriving DecidableEq, Repr

/-- The three parse outcomes for an action's JSON text distinguished by the
source: the empty string (checked explicitly), text on which
nlohmann::json::parse or the field accesses throw, and a successful parse. -/
inductive ActionJsonText where
  | empty
  | malformed
  | parsed (a : ActionJsonModel)
deriving DecidableEq, Repr

/-- EncodingParameters as constructed by getActionParams: the target link id,
the MIME type, the encodePackage flag, and the extra json string (always
empty in this source). -/
structure EncodingParameters where
  linkId : String
  type : String
  encodePackage : Bool
  json : String
deriving DecidableEq, Repr

/-- Result of PluginMastodon::getActionParams: the returned parameter vector
and whether the call drove the component to COMPONENT_STATE_FAILED via
sdk->updateState. -/
structure ActionParamsResult where
  params : List EncodingParameters
  stateFailed : Bool
deriving DecidableEq, Repr

/-- PluginMastodon::getActionParams from PluginMastodon.cpp lines 425-490.
Empty JSON updates the state to failed and returns no parameters.  A JSON
exception is caught and returns no parameters WITHOUT updating the state
(the catch block at lines 482-486 returns directly).  For parsed JSON the
"mixed"/"text+image" hint is handled by an inner switch that returns for
FETCH and POST and falls through to the outer switch for any other type;
every other hint selects image/jpeg for image-like hints and text/plain
otherwise, and the outer switch returns no parameters for FETCH, one
parameter for POST, and updates the state to failed for an unrecognized
type. -/
def getActionParams (actionJson : ActionJsonText) : ActionParamsResult :=
  match actionJson with
  | .empty => ⟨[], true⟩
  | .malformed => ⟨[], false⟩
  | .parsed a =>
    let mixedCase : Option ActionParamsResult :=
      if a.contentType = some "mixed" ∨ a.contentType = some "text+image" then
        match a.type with
        | ACTION_FETCH => some ⟨[], false⟩
        | ACTION_POST =>
          some ⟨[⟨a.linkId, "text/plain", true, ""⟩,
                 ⟨a.linkId, "image/jpeg", true, ""⟩], false⟩
        | ACTION_UNDEF => none
      else none
    match mixedCase with
    | some r => r
    | none =>
      let contentType :=
        if a.contentType = some "image" ∨ a.contentType = some "jpg" ∨
            a.contentType = some "jpeg"
        then "image/jpeg" else "text/plain"
      match a.type with
      | ACTION_FETCH => ⟨[], false⟩
      | ACTION_POST => ⟨[⟨a.linkId, contentType, true, ""⟩], false⟩
      | ACTION_UNDEF => ⟨[], true⟩

/-- Shared mutable state of the orchestrator touched by
PluginMastodon::enqueueContent: the two correlation tables and the per-link
content queues.  `linkContentQueues` is total in the link id; the modelled
calls address links that are registered. -/
structure PluginState where
  actionToLinkIdMap : Nat → Option String
  contentTypeMap : Nat → Option String
  linkContentQueues : String → Nat → Option ActionContent

/-- PluginMastodon::enqueueContent from PluginMastodon.cpp lines 510-553.
Empty content is skipped with COMPONENT_OK.  Empty or unparseable action
JSON returns COMPONENT_ERROR before any mutation.  For parsed JSON the two
correlation-table entries are written FIRST (lines 529-532), then the switch
returns COMPONENT_OK for FETCH, delegates to Link::enqueueContent for POST,
and returns COMPONENT_ERROR for an unrecognized type. -/
def PluginMastodon.enqueueContent (st : PluginState) (paramsLinkId : String)
    (paramsType : String) (actionId : Nat) (actionJson : ActionJsonText)
    (content : List Nat) : ComponentStatus × PluginState :=
  if content = [] then (COMPONENT_OK, st)
  else
    match actionJson with
    | .empty => (COMPONENT_ERROR, st)
    | .malformed => (COMPONENT_ERROR, st)
    | .parsed a =>
      let st1 : PluginState :=
        { st with
          actionToLinkIdMap := updMap st.actionToLinkIdMap actionId (some paramsLinkId)
          contentTypeMap := updMap st.contentTypeMap actionId (some paramsType) }
      match a.type with
      | ACTION_FETCH => (COMPONENT_OK, st1)
      | ACTION_POST =>
        let result :=
          Link.enqueueContent (st1.linkContentQueues paramsLinkId) actionId content paramsType
        (result.1,
          { st1 with
            linkContentQueues := updMap st1.linkContentQueues paramsLinkId result.2 })
      | ACTION_UNDEF => (COMPONENT_ERROR, st1)

/-- LinkMap::add from LinkMap.cpp: `links[link->getId()] = link` inserts or
replaces, so the registry is modelled as a duplicate-free list of link ids
where re-adding an existing id leaves the registry unchanged in size. -/
def LinkMap.add (links : List String) (linkId : String) : List String :=
  if linkId ∈ links then links else links ++ [linkId]

/-- PluginMastodon::preLinkCreate from PluginMastodon.cpp lines 178-199:
fails (reporting LINK_DESTROYED) when maxLinks is positive and the current
registry count has reached it, or when the current role's link side is
LS_UNDEF or equals the side that is invalid for this call. -/
def preLinkCreate (maxLinks : Int) (currentLinkSide : LinkSide)
    (invalidRoleLinkSide : LinkSide) (numLinks : Nat) : Bool :=
  if maxLinks > 0 ∧ (numLinks : Int) ≥ maxLinks then false
  else if currentLinkSide = LS_UNDEF ∨ currentLinkSide = invalidRoleLinkSide then false
  else true

/-- Observable outcome of one link-creation entry point: the returned
status, the onLinkStatusChanged reports issued for the link, and the
registry contents afterwards. -/
structure LinkCreateResult where
  status : ComponentStatus
  reports : List LinkStatus
  links : List String
deriving DecidableEq, Repr

/-- PluginMastodon::createLink from PluginMastodon.cpp lines 271-289: on
preLinkCreate failure (invalid side LS_LOADER) the link has been reported
LINK_DESTROYED and COMPONENT_ERROR is returned with no registry mutation;
otherwise a fresh address is generated, the link instantiated (never null),
registered via postLinkCreate, reported LINK_CREATED, and COMPONENT_OK
returned. -/
def createLink (maxLinks : Int) (currentLinkSide : LinkSide)
    (links : List String) (linkId : String) : LinkCreateResult :=
  if preLinkCreate maxLinks currentLinkSide LS_LOADER links.length then
    ⟨COMPONENT_OK, [LINK_CREATED], LinkMap.add links linkId⟩
  else
    ⟨COMPONENT_ERROR, [LINK_DESTROYED], links⟩

/-- PluginMastodon::loadLinkAddress from PluginMastodon.cpp lines 303-320:
on preLinkCreate failure (invalid side LS_CREATOR) the link has been
reported LINK_DESTROYED and COMPONENT_OK is returned with no registry
mutation; otherwise the supplied address is parsed, the link registered and
reported LINK_LOADED, and COMPONENT_OK returned. -/
def loadLinkAddress (maxLinks : Int) (currentLinkSide : LinkSide)
    (links : List String) (linkId : String) : LinkCreateResult :=
  if preLinkCreate maxLinks currentLinkSide LS_CREATOR links.length then
    ⟨COMPONENT_OK, [LINK_LOADED], LinkMap.add links linkId⟩
  else
    ⟨COMPONENT_OK, [LINK_DESTROYED], links⟩

/-- PluginMastodon::createLinkFromAddress from PluginMastodon.cpp lines
358-370: on preLinkCreate failure (invalid side LS_LOADER) the link has been
reported LINK_DESTROYED and COMPONENT_OK is returned with no registry
mutation; otherwise the supplied address is parsed, the link registered and
reported LINK_CREATED, and COMPONENT_OK returned. -/
def createLinkFromAddress (maxLinks : Int) (currentLinkSide : LinkSide)
    (links : List String) (linkId : String) : LinkCreateResult :=
  if preLinkCreate maxLinks currentLinkSide LS_LOADER links.length then
    ⟨COMPONENT_OK, [LINK_CREATED], LinkMap.add links linkId⟩
  else
    ⟨COMPONENT_OK, [LINK_DESTROYED], links⟩

/-- MessageHashQueue::addMessage from MessageHashQueue.cpp lines 44-51: if
the queue size already EXCEEDS max the front element is popped, then the new
hash is pushed at the back.  The std::hash of the message is abstracted to
the hash value itself, which the claims about sizes never inspect. -/
def MessageHashQueue.addMessage (max : Nat) (queue : List Nat) (msgHash : Nat) :
    List Nat :=
  let queue1 := if queue.length > max then queue.tail else queue
  queue1 ++ [msgHash]

/-- The single demultiplexing pass of Link::fetch computes exactly the two
filters of the search results, in retrieval order. -/
theorem splitByKind_eq (results : List MastodonContent) :
    splitByKind results =
      (results.filter (fun c => c.contentType == "text/plain"),
       results.filter (fun c => c.contentType == "image/jpeg")) := by
  have go : ∀ (rs : List MastodonContent) (acc : List MastodonContent × List MastodonContent),
      rs.foldl
        (fun acc content =>
          if content.contentType == "text/plain" then (acc.1 ++ [content], acc.2)
          else if content.contentType == "image/jpeg" then (acc.1, acc.2 ++ [content])
          else acc) acc =
      (acc.1 ++ rs.filter (fun c => c.contentType == "text/plain"),
       acc.2 ++ rs.filter (fun c => c.contentType == "image/jpeg")) := by
    intro rs
    induction rs with
    | nil => intro acc; simp
    | cons c rest ih =>
      intro acc
      rw [List.foldl_cons, ih]
      by_cases ht : c.contentType = "text/plain"
      · simp [List.filter_cons, ht]
      · by_cases hi : c.contentType = "image/jpeg"
        · simp [List.filter_cons, ht, hi]
        · simp [List.filter_cons, ht, hi]
  simpa [splitByKind] using go results ([], [])

/-- C1: for every link whose content-host search returns a sequence
containing N items of type text/plain and M items of type image/jpeg,
Link::fetch delivers exactly N+M inbound-callback invocations, with all N
text deliveries preceding all M image deliveries, and the order within each
kind equal to the search-result (retrieval) order. -/
theorem fetch_delivers_text_then_image (linkId : String)
    (results : List MastodonContent) (N M : Nat)
    (hN : (results.filter (fun c => c.contentType == "text/plain")).length = N)
    (hM : (results.filter (fun c => c.contentType == "image/jpeg")).length = M) :
    (Link.fetch linkId results).2 =
      (results.filter (fun c => c.contentType == "text/plain")).map
        (fun content => ⟨linkId, content.contentType, content.data⟩) ++
      (results.filter (fun c => c.contentType == "image/jpeg")).map
        (fun content => ⟨linkId, content.contentType, content.data⟩) ∧
    (Link.fetch linkId results).2.length = N + M := by
  constructor
  · simp [Link.fetch, splitByKind_eq]
  · simp [Link.fetch, splitByKind_eq, hN, hM]

/-- Witness for C1 at a concrete three-item search result. -/
theorem fetch_delivers_text_then_image_witness :
    (Link.fetch "L"
        [⟨"text/plain", [1]⟩, ⟨"image/jpeg", [2]⟩, ⟨"text/plain", [3]⟩]).2 =
      (([⟨"text/plain", [1]⟩, ⟨"image/jpeg", [2]⟩, ⟨"text/plain", [3]⟩] :
          List MastodonContent).filter (fun c => c.contentType == "text/plain")).map
        (fun content => ⟨"L", content.contentType, content.data⟩) ++
      (([⟨"text/plain", [1]⟩, ⟨"image/jpeg", [2]⟩, ⟨"text/plain", [3]⟩] :
          List MastodonContent).filter (fun c => c.contentType == "image/jpeg")).map
        (fun content => ⟨"L", content.contentType, content.data⟩) ∧
    (Link.fetch "L"
        [⟨"text/plain", [1]⟩, ⟨"image/jpeg", [2]⟩, ⟨"text/plain", [3]⟩]).2.length = 2 + 1 :=
  fetch_delivers_text_then_image "L"
    [⟨"text/plain", [1]⟩, ⟨"image/jpeg", [2]⟩, ⟨"text/plain", [3]⟩] 2 1
    (by decide) (by decide)

/-- C2: for every action whose JSON has type POST and contentType hint
"mixed" (or "text+image"), getActionParams returns exactly two encoding
parameters in the fixed order [text/plain, image/jpeg], both addressed to
the action's link; for every action whose JSON has type FETCH, regardless of
any contentType hint, getActionParams returns an empty parameter list. -/
theorem getActionParams_mixed_post_and_fetch :
    (∀ a : ActionJsonModel, a.type = ACTION_POST →
      (a.contentType = some "mixed" ∨ a.contentType = some "text+image") →
      getActionParams (.parsed a) =
        ⟨[⟨a.linkId, "text/plain", true, ""⟩, ⟨a.linkId, "image/jpeg", true, ""⟩],
          false⟩) ∧
    (∀ a : ActionJsonModel, a.type = ACTION_FETCH →
      (getActionParams (.parsed a)).params = []) := by
  constructor
  · intro a htype hhint
    rcases hhint with hhint | hhint <;> simp [getActionParams, htype, hhint]
  · intro a htype
    by_cases hhint : a.contentType = some "mixed" ∨ a.contentType = some "text+image"
    · rcases hhint with hhint | hhint <;> simp [getActionParams, htype, hhint]
    · push_neg at hhint
      simp [getActionParams, htype, hhint.1, hhint.2]

/-- Witness for C2 at a concrete mixed POST action and a concrete FETCH
action carrying an image content-type hint. -/
theorem getActionParams_mixed_post_and_fetch_witness :
    getActionParams (.parsed ⟨ACTION_POST, "link7", some "mixed"⟩) =
      ⟨[⟨"link7", "text/plain", true, ""⟩, ⟨"link7", "image/jpeg", true, ""⟩],
        false⟩ ∧
    (getActionParams (.parsed ⟨ACTION_FETCH, "link7", some "image"⟩)).params = [] :=
  ⟨getActionParams_mixed_post_and_fetch.1 ⟨ACTION_POST, "link7", some "mixed"⟩
      rfl (Or.inl rfl),
    getActionParams_mixed_post_and_fetch.2 ⟨ACTION_FETCH, "link7", some "image"⟩ rfl⟩

/-- C3: on unparseable action JSON the catch block of getActionParams
(PluginMastodon.cpp lines 482-486) returns an empty parameter vector and
returns DIRECTLY, never reaching the sdk->updateState(COMPONENT_STATE_FAILED)
call at line 488, although the function's own doc comment states that the
component state is updated to failed on JSON parse errors.  Only the
empty-JSON and unrecognized-type paths set the failed state. -/
theorem getActionParams_malformed_no_failed_state :
    getActionParams .malformed = ⟨[], false⟩ ∧
    getActionParams .empty = ⟨[], true⟩ ∧
    (∀ a : ActionJsonModel, a.type = ACTION_UNDEF → a.contentType = none →
      getActionParams (.parsed a) = ⟨[], true⟩) := by
  refine ⟨rfl, rfl, ?_⟩
  intro a htype hhint
  simp [getActionParams, htype, hhint]

/-- Witness for C3 instantiating the unrecognized-type conjunct. -/
theorem getActionParams_malformed_no_failed_state_witness :
    getActionParams .malformed = ⟨[], false⟩ ∧
    getActionParams .empty = ⟨[], true⟩ ∧
    getActionParams (.parsed ⟨ACTION_UNDEF, "link7", none⟩) = ⟨[], true⟩ :=
  ⟨getActionParams_malformed_no_failed_state.1,
    getActionParams_malformed_no_failed_state.2.1,
    getActionParams_malformed_no_failed_state.2.2 ⟨ACTION_UNDEF, "link7", none⟩ rfl rfl⟩

/-- Any buffered record with at least one presence flag selects a
transmission call. -/
theorem ActionContent.transmission_isSome (content : ActionContent)
    (hashtag : String) (h : content.hasText = true ∨ content.hasImage = true) :
    ∃ call, content.transmission hashtag = some call := by
  rcases htext : content.hasText <;> rcases himage : content.hasImage
  · simp [htext, himage] at h
  · simp [ActionContent.transmission, htext, himage]
  · simp [ActionContent.transmission, htext, himage]
  · simp [ActionContent.transmission, htext, himage]

/-- C4: for every action id with a buffered content record (which, being
created only by Link::enqueueContent, carries at least one presence flag)
and every non-empty handle list: if the content-host transmission reports
success, Link::post reports PACKAGE_SENT on every supplied handle and
removes the buffered record; if the transmission reports failure, Link::post
reports PACKAGE_FAILED_GENERIC on every supplied handle and the buffered
record is retained unchanged. -/
theorem post_success_and_failure (host : HostCall → Bool) (hashtagBase : String)
    (contentQueue : Nat → Option ActionContent) (handles : List Nat)
    (actionId : Nat) (content : ActionContent)
    (hq : contentQueue actionId = some content)
    (hc : content.hasText = true ∨ content.hasImage = true)
    (_hh : handles ≠ []) :
    ∃ call, content.transmission ("#" ++ hashtagBase) = some call ∧
      (host call = true →
        Link.post host hashtagBase contentQueue handles actionId =
          ⟨COMPONENT_OK, updatePackageStatus handles PACKAGE_SENT, [call],
            updMap contentQueue actionId none⟩) ∧
      (host call = false →
        Link.post host hashtagBase contentQueue handles actionId =
          ⟨COMPONENT_ERROR, updatePackageStatus handles PACKAGE_FAILED_GENERIC,
            [call], contentQueue⟩) := by
  obtain ⟨call, hcall⟩ := content.transmission_isSome ("#" ++ hashtagBase) hc
  refine ⟨call, hcall, ?_, ?_⟩ <;> intro hhost <;>
    simp [Link.post, hq, hcall, hhost]

/-- Witness for C4 at a concrete queue holding both content kinds under
action id 7, with a host oracle that succeeds on every call. -/
theorem post_success_and_failure_witness :
    ∃ call,
      ActionContent.transmission ⟨[1], [2], true, true⟩ ("#" ++ "tag") = some call ∧
      ((fun _ => true) call = true →
        Link.post (fun _ => true) "tag"
            (fun n => if n = 7 then some ⟨[1], [2], true, true⟩ else none) [3, 4] 7 =
          ⟨COMPONENT_OK, updatePackageStatus [3, 4] PACKAGE_SENT, [call],
            updMap (fun n => if n = 7 then some ⟨[1], [2], true, true⟩ else none)
              7 none⟩) ∧
      ((fun _ => true) call = false →
        Link.post (fun _ => true) "tag"
            (fun n => if n = 7 then some ⟨[1], [2], true, true⟩ else none) [3, 4] 7 =
          ⟨COMPONENT_ERROR, updatePackageStatus [3, 4] PACKAGE_FAILED_GENERIC,
            [call], fun n => if n = 7 then some ⟨[1], [2], true, true⟩ else none⟩) :=
  post_success_and_failure (fun _ => true) "tag"
    (fun n => if n = 7 then some ⟨[1], [2], true, true⟩ else none) [3, 4] 7
    ⟨[1], [2], true, true⟩ (by simp) (Or.inl rfl) (by simp)

/-- C5: for every action id and every handle list, Link::dequeueContent
followed by Link::post is observationally identical to Link::post on an
action id that was never enqueued: both report PACKAGE_FAILED_GENERIC on
every supplied handle, make no content-host call, return COMPONENT_OK, and
leave the buffer empty for that id. -/
theorem dequeue_then_post_eq_never_enqueued (host : HostCall → Bool)
    (hashtagBase : String) (q q' : Nat → Option ActionContent)
    (handles : List Nat) (actionId : Nat)
    (hnever : q' actionId = none) :
    (Link.post host hashtagBase (Link.dequeueContent q actionId).2 handles actionId).status =
      (Link.post host hashtagBase q' handles actionId).status ∧
    (Link.post host hashtagBase (Link.dequeueContent q actionId).2 handles actionId).reports =
      (Link.post host hashtagBase q' handles actionId).reports ∧
    (Link.post host hashtagBase (Link.dequeueContent q actionId).2 handles actionId).hostCalls =
      (Link.post host hashtagBase q' handles actionId).hostCalls ∧
    (Link.post host hashtagBase q' handles actionId).status = COMPONENT_OK ∧
    (Link.post host hashtagBase q' handles actionId).reports =
      updatePackageStatus handles PACKAGE_FAILED_GENERIC ∧
    (Link.post host hashtagBase q' handles actionId).hostCalls = [] ∧
    (Link.post host hashtagBase (Link.dequeueContent q actionId).2 handles
        actionId).contentQueue actionId = none ∧
    (Link.post host hashtagBase q' handles actionId).contentQueue actionId = none := by
  have hdq : (Link.dequeueContent q actionId).2 actionId = none := by
    simp [Link.dequeueContent, updMap]
  simp [Link.post, hdq, hnever]

/-- Witness for C5 with an enqueued-then-dequeued record under action id 7
compared against an everywhere-empty queue. -/
theorem dequeue_then_post_eq_never_enqueued_witness :
    (Link.post (fun _ => true) "tag"
        (Link.dequeueContent
          (fun n => if n = 7 then some ⟨[1], [], true, false⟩ else none) 7).2
        [3] 7).status =
      (Link.post (fun _ => true) "tag" (fun _ => none) [3] 7).status ∧
    (Link.post (fun _ => true) "tag"
        (Link.dequeueContent
          (fun n => if n = 7 then some ⟨[1], [], true, false⟩ else none) 7).2
        [3] 7).reports =
      (Link.post (fun _ => true) "tag" (fun _ => none) [3] 7).reports ∧
    (Link.post (fun _ => true) "tag"
        (Link.dequeueContent
          (fun n => if n = 7 then some ⟨[1], [], true, false⟩ else none) 7).2
        [3] 7).hostCalls =
      (Link.post (fun _ => true) "tag" (fun _ => none) [3] 7).hostCalls ∧
    (Link.post (fun _ => true) "tag" (fun _ => none) [3] 7).status = COMPONENT_OK ∧
    (Link.post (fun _ => true) "tag" (fun _ => none) [3] 7).reports =
      updatePackageStatus [3] PACKAGE_FAILED_GENERIC ∧
    (Link.post (fun _ => true) "tag" (fun _ => none) [3] 7).hostCalls = [] ∧
    (Link.post (fun _ => true) "tag"
        (Link.dequeueContent
          (fun n => if n = 7 then some ⟨[1], [], true, false⟩ else none) 7).2
        [3] 7).contentQueue 7 = none ∧
    (Link.post (fun _ => true) "tag" (fun _ => none) [3] 7).contentQueue 7 = none :=
  dequeue_then_post_eq_never_enqueued (fun _ => true) "tag"
    (fun n => if n = 7 then some ⟨[1], [], true, false⟩ else none)
    (fun _ => none) [3] 7 rfl

/-- Writing back the value a key already holds leaves a function-backed map
unchanged. -/
theorem updMap_self {α β : Type} [DecidableEq α] (m : α → β) (k : α) :
    updMap m k (m k) = m := by
  funext k'
  by_cases h : k' = k <;> simp [updMap, h]

/-- C6 counterexample: a parseable action JSON of unrecognized type, with
non-empty content, makes PluginMastodon::enqueueContent return
COMPONENT_ERROR while having already written the actionId-to-linkId entry
(and the content-type entry) into the orchestrator's correlation tables,
mutating shared state on a failing call. -/
theorem plugin_enqueue_partial_mutation_cex :
    (PluginMastodon.enqueueContent
        ⟨fun _ => none, fun _ => none, fun _ _ => none⟩
        "link1" "text/plain" 7 (.parsed ⟨ACTION_UNDEF, "*", none⟩) [1]).1 =
      COMPONENT_ERROR ∧
    (PluginMastodon.enqueueContent
        ⟨fun _ => none, fun _ => none, fun _ _ => none⟩
        "link1" "text/plain" 7 (.parsed ⟨ACTION_UNDEF, "*", none⟩) [1]).2.actionToLinkIdMap
        7 = some "link1" ∧
    (PluginMastodon.enqueueContent
        ⟨fun _ => none, fun _ => none, fun _ _ => none⟩
        "link1" "text/plain" 7 (.parsed ⟨ACTION_UNDEF, "*", none⟩) [1]).2.contentTypeMap
        7 = some "text/plain" := by
  refine ⟨?_, ?_, ?_⟩ <;>
    simp [PluginMastodon.enqueueContent, updMap]

/-- C6 amended: empty or malformed action JSON is reported as an error with
no mutation of shared state at all; an unrecognized action type or an
unknown MIME type on a POST enqueue is reported as an error and leaves every
link's content buffers unmutated, but the failing call has already recorded
the actionId-to-linkId and actionId-to-contentType correlation entries. -/
theorem plugin_enqueue_error_paths (st : PluginState) (paramsLinkId : String)
    (paramsType : String) (actionId : Nat) (content : List Nat)
    (a : ActionJsonModel) (hcontent : content ≠ []) :
    (PluginMastodon.enqueueContent st paramsLinkId paramsType actionId .empty
        content = (COMPONENT_ERROR, st)) ∧
    (PluginMastodon.enqueueContent st paramsLinkId paramsType actionId .malformed
        content = (COMPONENT_ERROR, st)) ∧
    (a.type = ACTION_UNDEF →
      ((PluginMastodon.enqueueContent st paramsLinkId paramsType actionId
          (.parsed a) content).1 = COMPONENT_ERROR ∧
       (PluginMastodon.enqueueContent st paramsLinkId paramsType actionId
          (.parsed a) content).2.linkContentQueues = st.linkContentQueues ∧
       (PluginMastodon.enqueueContent st paramsLinkId paramsType actionId
          (.parsed a) content).2.actionToLinkIdMap actionId = some paramsLinkId ∧
       (PluginMastodon.enqueueContent st paramsLinkId paramsType actionId
          (.parsed a) content).2.contentTypeMap actionId = some paramsType)) ∧
    (a.type = ACTION_POST → paramsType ≠ "text/plain" → paramsType ≠ "image/jpeg" →
      ((PluginMastodon.enqueueContent st paramsLinkId paramsType actionId
          (.parsed a) content).1 = COMPONENT_ERROR ∧
       (PluginMastodon.enqueueContent st paramsLinkId paramsType actionId
          (.parsed a) content).2.linkContentQueues = st.linkContentQueues ∧
       (PluginMastodon.enqueueContent st paramsLinkId paramsType actionId
          (.parsed a) content).2.actionToLinkIdMap actionId = some paramsLinkId ∧
       (PluginMastodon.enqueueContent st paramsLinkId paramsType actionId
          (.parsed a) content).2.contentTypeMap actionId = some paramsType)) := by
  refine ⟨?_, ?_, ?_, ?_⟩
  · simp [PluginMastodon.enqueueContent, hcontent]
  · simp [PluginMastodon.enqueueContent, hcontent]
  · intro htype
    refine ⟨?_, ?_, ?_, ?_⟩ <;>
      simp [PluginMastodon.enqueueContent, hcontent, htype, updMap]
  · intro htype htext himage
    refine ⟨?_, ?_, ?_, ?_⟩ <;>
      simp [PluginMastodon.enqueueContent, Link.enqueueContent, hcontent, htype,
        htext, himage, updMap_self, updMap]

/-- Witness for C6 amended, at an empty orchestrator state, action id 7 and
the unknown MIME type application/pdf. -/
theorem plugin_enqueue_error_paths_witness :
    (PluginMastodon.enqueueContent
        ⟨fun _ => none, fun _ => none, fun _ _ => none⟩ "link1" "application/pdf" 7
        .empty [1] =
      (COMPONENT_ERROR, ⟨fun _ => none, fun _ => none, fun _ _ => none⟩)) ∧
    (PluginMastodon.enqueueContent
        ⟨fun _ => none, fun _ => none, fun _ _ => none⟩ "link1" "application/pdf" 7
        .malformed [1] =
      (COMPONENT_ERROR, ⟨fun _ => none, fun _ => none, fun _ _ => none⟩)) ∧
    (ActionJsonModel.type ⟨ACTION_UNDEF, "*", none⟩ = ACTION_UNDEF →
      ((PluginMastodon.enqueueContent
          ⟨fun _ => none, fun _ => none, fun _ _ => none⟩ "link1" "application/pdf" 7
          (.parsed ⟨ACTION_UNDEF, "*", none⟩) [1]).1 = COMPONENT_ERROR ∧
       (PluginMastodon.enqueueContent
          ⟨fun _ => none, fun _ => none, fun _ _ => none⟩ "link1" "application/pdf" 7
          (.parsed ⟨ACTION_UNDEF, "*", none⟩) [1]).2.linkContentQueues =
        PluginState.linkContentQueues ⟨fun _ => none, fun _ => none, fun _ _ => none⟩ ∧
       (PluginMastodon.enqueueContent
          ⟨fun _ => none, fun _ => none, fun _ _ => none⟩ "link1" "application/pdf" 7
          (.parsed ⟨ACTION_UNDEF, "*", none⟩) [1]).2.actionToLinkIdMap 7 = some "link1" ∧
       (PluginMastodon.enqueueContent
          ⟨fun _ => none, fun _ => none, fun _ _ => none⟩ "link1" "application/pdf" 7
          (.parsed ⟨ACTION_UNDEF, "*", none⟩) [1]).2.contentTypeMap 7 =
        some "application/pdf")) ∧
    (ActionJsonModel.type ⟨ACTION_UNDEF, "*", none⟩ = ACTION_POST →
      "application/pdf" ≠ "text/plain" → "application/pdf" ≠ "image/jpeg" →
      ((PluginMastodon.enqueueContent
          ⟨fun _ => none, fun _ => none, fun _ _ => none⟩ "link1" "application/pdf" 7
          (.parsed ⟨ACTION_UNDEF, "*", none⟩) [1]).1 = COMPONENT_ERROR ∧
       (PluginMastodon.enqueueContent
          ⟨fun _ => none, fun _ => none, fun _ _ => none⟩ "link1" "application/pdf" 7
          (.parsed ⟨ACTION_UNDEF, "*", none⟩) [1]).2.linkContentQueues =
        PluginState.linkContentQueues ⟨fun _ => none, fun _ => none, fun _ _ => none⟩ ∧
       (PluginMastodon.enqueueContent
          ⟨fun _ => none, fun _ => none, fun _ _ => none⟩ "link1" "application/pdf" 7
          (.parsed ⟨ACTION_UNDEF, "*", none⟩) [1]).2.actionToLinkIdMap 7 = some "link1" ∧
       (PluginMastodon.enqueueContent
          ⟨fun _ => none, fun _ => none, fun _ _ => none⟩ "link1" "application/pdf" 7
          (.parsed ⟨ACTION_UNDEF, "*", none⟩) [1]).2.contentTypeMap 7 =
        some "application/pdf")) :=
  plugin_enqueue_error_paths
    ⟨fun _ => none, fun _ => none, fun _ _ => none⟩ "link1" "application/pdf" 7 [1]
    ⟨ACTION_UNDEF, "*", none⟩ (by simp)

/-- A passing preLinkCreate capacity check with a positive maxLinks bounds
the current registry count strictly below maxLinks. -/
theorem preLinkCreate_length_lt (maxLinks : Int) (side invalidSide : LinkSide)
    (n : Nat) (hmax : 0 < maxLinks)
    (h : preLinkCreate maxLinks side invalidSide n = true) :
    (n : Int) < maxLinks := by
  by_contra hge
  push_neg at hge
  have hcond : maxLinks > 0 ∧ (n : Int) ≥ maxLinks := ⟨hmax, hge⟩
  rw [preLinkCreate, if_pos hcond] at h
  simp at h

/-- Registering a link grows the registry by at most one entry. -/
theorem LinkMap.add_length_le (links : List String) (linkId : String) :
    (LinkMap.add links linkId).length ≤ links.length + 1 := by
  by_cases h : linkId ∈ links <;> simp [LinkMap.add, h]

/-- Any sequence of createLink calls keeps the registry count at or below a
positive maxLinks, starting from a registry already within the bound. -/
theorem createLink_fold_length_le (maxLinks : Int) (side : LinkSide)
    (hmax : 0 < maxLinks) :
    ∀ (linkIds : List String) (links : List String),
      (links.length : Int) ≤ maxLinks →
      (((linkIds.foldl (fun ls lid => (createLink maxLinks side ls lid).links)
          links).length : Int) ≤ maxLinks) := by
  intro linkIds
  induction linkIds with
  | nil => intro links h; simpa using h
  | cons lid rest ih =>
    intro links h
    rw [List.foldl_cons]
    apply ih
    by_cases hp : preLinkCreate maxLinks side LS_LOADER links.length = true
    · have hlt := preLinkCreate_length_lt maxLinks side LS_LOADER links.length hmax hp
      have hadd := LinkMap.add_length_le links lid
      simp only [createLink, hp, if_true]
      have : ((LinkMap.add links lid).length : Int) ≤ (links.length : Int) + 1 := by
        exact_mod_cast hadd
      omega
    · simp only [createLink, hp, if_false]
      simpa using h

/-- C7: with maxLinks configured greater than zero, every sequence of
createLink calls starting from an empty registry keeps at most maxLinks
registered links, and the createLink call issued while the registry already
holds maxLinks links reports the new link LINK_DESTROYED, returns
COMPONENT_ERROR, and performs no registry mutation, leaving the count
unchanged. -/
theorem createLink_respects_maxLinks (maxLinks : Int) (side : LinkSide)
    (linkIds : List String) (links : List String) (linkId : String)
    (hmax : 0 < maxLinks)
    (hfull : (links.length : Int) = maxLinks) :
    (((linkIds.foldl (fun ls lid => (createLink maxLinks side ls lid).links)
        []).length : Int) ≤ maxLinks) ∧
    createLink maxLinks side links linkId =
      ⟨COMPONENT_ERROR, [LINK_DESTROYED], links⟩ := by
  constructor
  · exact createLink_fold_length_le maxLinks side hmax linkIds [] (by simp; omega)
  · have hcond : maxLinks > 0 ∧ (links.length : Int) ≥ maxLinks := by omega
    have hp : preLinkCreate maxLinks side LS_LOADER links.length = false := by
      rw [preLinkCreate, if_pos hcond]
    simp [createLink, hp]

/-- Witness for C7 at maxLinks 1, a creator-side role, a two-element
creation sequence and a registry already holding one link. -/
theorem createLink_respects_maxLinks_witness :
    (((["a", "b"].foldl (fun ls lid => (createLink 1 LS_CREATOR ls lid).links)
        []).length : Int) ≤ 1) ∧
    createLink 1 LS_CREATOR ["x"] "y" =
      ⟨COMPONENT_ERROR, [LINK_DESTROYED], ["x"]⟩ :=
  createLink_respects_maxLinks 1 LS_CREATOR ["a", "b"] ["x"] "y"
    (by decide) (by decide)

/-- C8 counterexample: with a configured maximum of 0, a single addMessage
on the empty queue stores one hash, exceeding the maximum; the dedupe
window can hold max+1 hashes because the eviction check runs before the
push. -/
theorem addMessage_exceeds_max_cex :
    (MessageHashQueue.addMessage 0 [] 5).length = 1 ∧
    ¬ ((MessageHashQueue.addMessage 0 [] 5).length ≤ 0) := by
  constructor <;> decide

/-- C8 amended: for every sequence of addMessage calls starting from an
empty queue, the number of stored hashes after each addMessage never
exceeds max + 1. -/
theorem addMessage_length_le (max : Nat) (hashes : List Nat) :
    (hashes.foldl (fun queue msgHash => MessageHashQueue.addMessage max queue msgHash)
        []).length ≤ max + 1 := by
  have step : ∀ (queue : List Nat) (msgHash : Nat), queue.length ≤ max + 1 →
      (MessageHashQueue.addMessage max queue msgHash).length ≤ max + 1 := by
    intro queue msgHash hq
    by_cases hlen : queue.length > max
    · simp [MessageHashQueue.addMessage, hlen]
      omega
    · simp [MessageHashQueue.addMessage, hlen]
      omega
  have go : ∀ (hs : List Nat) (queue : List Nat), queue.length ≤ max + 1 →
      ((hs.foldl (fun q msgHash => MessageHashQueue.addMessage max q msgHash)
          queue).length ≤ max + 1) := by
    intro hs
    induction hs with
    | nil => intro queue hq; simpa using hq
    | cons msgHash rest ih =>
      intro queue hq
      rw [List.foldl_cons]
      exact ih _ (step queue msgHash hq)
  exact go hashes [] (by simp)

/-- C9: calling Link::enqueueContent a second time with the same recognized
MIME type before posting overwrites the previously stored bytes for that
kind with the new bytes, leaving the other kind's slot (bytes and presence
flag) and every other action id's record unchanged. -/
theorem enqueue_same_kind_overwrites (q : Nat → Option ActionContent)
    (actionId : Nat) (c1 c2 : List Nat) (t : String)
    (ht : t = "text/plain" ∨ t = "image/jpeg") :
    ∃ r1 r2,
      (Link.enqueueContent q actionId c1 t).2 actionId = some r1 ∧
      (Link.enqueueContent (Link.enqueueContent q actionId c1 t).2 actionId c2
          t).2 actionId = some r2 ∧
      (t = "text/plain" →
        r1.textContent = c1 ∧ r2.textContent = c2 ∧ r2.hasText = true ∧
        r2.imageContent = r1.imageContent ∧ r2.hasImage = r1.hasImage) ∧
      (t = "image/jpeg" →
        r1.imageContent = c1 ∧ r2.imageContent = c2 ∧ r2.hasImage = true ∧
        r2.textContent = r1.textContent ∧ r2.hasText = r1.hasText) ∧
      (∀ aid', aid' ≠ actionId →
        (Link.enqueueContent (Link.enqueueContent q actionId c1 t).2 actionId c2
            t).2 aid' =
          (Link.enqueueContent q actionId c1 t).2 aid') := by
  rcases ht with ht | ht <;> subst ht
  · refine ⟨{ (q actionId).getD {} with textContent := c1, hasText := true },
      { (q actionId).getD {} with textContent := c2, hasText := true },
      ?_, ?_, ?_, ?_, ?_⟩
    · simp [Link.enqueueContent, updMap]
    · simp [Link.enqueueContent, updMap]
    · simp
    · simp
    · intro aid' haid
      simp [Link.enqueueContent, updMap, haid]
  · refine ⟨{ (q actionId).getD {} with imageContent := c1, hasImage := true },
      { (q actionId).getD {} with imageContent := c2, hasImage := true },
      ?_, ?_, ?_, ?_, ?_⟩
    · simp [Link.enqueueContent, updMap]
    · simp [Link.enqueueContent, updMap]
    · simp
    · simp
    · intro aid' haid
      simp [Link.enqueueContent, updMap, haid]

/-- Witness for C9: text bytes enqueued twice under action id 7 on a queue
that already holds an image-bearing record for id 7 and a record for id 8. -/
theorem enqueue_same_kind_overwrites_witness :
    ∃ r1 r2,
      (Link.enqueueContent
          (fun n => if n = 7 then some ⟨[], [9], false, true⟩ else
            if n = 8 then some ⟨[4], [], true, false⟩ else none)
          7 [1] "text/plain").2 7 = some r1 ∧
      (Link.enqueueContent
          (Link.enqueueContent
            (fun n => if n = 7 then some ⟨[], [9], false, true⟩ else
              if n = 8 then some ⟨[4], [], true, false⟩ else none)
            7 [1] "text/plain").2
          7 [2] "text/plain").2 7 = some r2 ∧
      ("text/plain" = "text/plain" →
        r1.textContent = [1] ∧ r2.textContent = [2] ∧ r2.hasText = true ∧
        r2.imageContent = r1.imageContent ∧ r2.hasImage = r1.hasImage) ∧
      ("text/plain" = "image/jpeg" →
        r1.imageContent = [1] ∧ r2.imageContent = [2] ∧ r2.hasImage = true ∧
        r2.textContent = r1.textContent ∧ r2.hasText = r1.hasText) ∧
      (∀ aid', aid' ≠ 7 →
        (Link.enqueueContent
            (Link.enqueueContent
              (fun n => if n = 7 then some ⟨[], [9], false, true⟩ else
                if n = 8 then some ⟨[4], [], true, false⟩ else none)
              7 [1] "text/plain").2
            7 [2] "text/plain").2 aid' =
          (Link.enqueueContent
              (fun n => if n = 7 then some ⟨[], [9], false, true⟩ else
                if n = 8 then some ⟨[4], [], true, false⟩ else none)
              7 [1] "text/plain").2 aid') :=
  enqueue_same_kind_overwrites
    (fun n => if n = 7 then some ⟨[], [9], false, true⟩ else
      if n = 8 then some ⟨[4], [], true, false⟩ else none)
    7 [1] [2] "text/plain" (Or.inl rfl)

/-- C10: when the preLinkCreate role/capacity check fails, the three
link-creation entry points disagree on their return status even though all
report the link LINK_DESTROYED: createLink returns COMPONENT_ERROR, while
loadLinkAddress and createLinkFromAddress both return COMPONENT_OK. -/
theorem createPaths_disagree_on_precheck_failure (maxLinks : Int)
    (side : LinkSide) (links : List String) (linkId : String)
    (hfailCreate : preLinkCreate maxLinks side LS_LOADER links.length = false)
    (hfailLoad : preLinkCreate maxLinks side LS_CREATOR links.length = false) :
    createLink maxLinks side links linkId =
      ⟨COMPONENT_ERROR, [LINK_DESTROYED], links⟩ ∧
    loadLinkAddress maxLinks side links linkId =
      ⟨COMPONENT_OK, [LINK_DESTROYED], links⟩ ∧
    createLinkFromAddress maxLinks side links linkId =
      ⟨COMPONENT_OK, [LINK_DESTROYED], links⟩ := by
  simp [createLink, loadLinkAddress, createLinkFromAddress, hfailCreate, hfailLoad]

/-- Witness for C10: an undefined role link side fails the precheck of all
three entry points. -/
theorem createPaths_disagree_on_precheck_failure_witness :
    createLink 1 LS_UNDEF [] "L" = ⟨COMPONENT_ERROR, [LINK_DESTROYED], []⟩ ∧
    loadLinkAddress 1 LS_UNDEF [] "L" = ⟨COMPONENT_OK, [LINK_DESTROYED], []⟩ ∧
    createLinkFromAddress 1 LS_UNDEF [] "L" =
      ⟨COMPONENT_OK, [LINK_DESTROYED], []⟩ :=
  createPaths_disagree_on_precheck_failure 1 LS_UNDEF [] "L"
    (by decide) (by decide)

end MastodonTransport
